import Mathlib

/-!
Verification development for the drug-recommendation core
(python_service/model.py, class DrugRecommender).

Shallow embedding conventions:
  - Python floats are modelled as exact rationals.
  - Python round(x, n) rounds half to even; this is modelled by rhe.
  - Python dictionaries are association lists in insertion order;
    dict updates keep the original key position (dsUpdate).
  - Python sorted(key, reverse=True) is a stable descending merge sort.
  - Python substring tests (a in b for strings) are modelled by pyIn.
  - The condition index (self.condition_drug_map) is built from data
    files that are not part of the source tree, so predict is
    parametrised by the index; likewise the SHAP attribution engine is
    an external capability, so predict is parametrised by the
    explanation function, with fallback_explanations (the model-is-None
    path of the source) as the concrete default.
  - matched conditions are built by Python as a set; the embedding uses
    an insertion-ordered deduplicated list.  Every downstream use is
    order-insensitive (the match test of the scorer quantifies over the
    whole list), so this choice is observationally faithful.
  - Python sorted is stable, and a stable sort result is uniquely
    determined by the input order and the key, so it is embedded as the
    structurally recursive stable List.insertionSort.
-/

attribute [local semireducible] Rat.add Rat.mul Rat.sub Rat.inv Rat.ofScientific

/-- listStartsWith n h decides whether the char list n is an initial
segment of h. -/
def listStartsWith : List Char → List Char → Bool
  | [], _ => true
  | _ :: _, [] => false
  | a :: as, b :: bs => a == b && listStartsWith as bs

/-- listSubstr n h decides whether the char list n occurs contiguously
inside h, like the Python expression n in h on strings. -/
def listSubstr (needle : List Char) : List Char → Bool
  | [] => needle.isEmpty
  | c :: hs => listStartsWith needle (c :: hs) || listSubstr needle hs

/-- pyIn a b is the Python string test a in b (contiguous substring,
with the empty string contained in everything). -/
def pyIn (needle hay : String) : Bool := listSubstr needle.toList hay.toList

/-- titleChars prev cs capitalises like Python str.title: an alphabetic
character is uppercased when the previous character was not alphabetic
(prev records whether it was), lowercased otherwise. -/
def titleChars : Bool → List Char → List Char
  | _, [] => []
  | prev, c :: cs =>
    if c.isAlpha then (if prev then c.toLower else c.toUpper) :: titleChars true cs
    else c :: titleChars false cs

/-- pyTitle is Python str.title restricted to ASCII alphabetic casing. -/
def pyTitle (s : String) : String := String.mk (titleChars false s.toList)

/-- pyLower is Python str.lower restricted to ASCII casing, mapping
Char.toLower over the characters. -/
def pyLower (s : String) : String := String.mk (s.toList.map Char.toLower)

/-- rhe x rounds the rational x to the nearest integer with ties going
to the even integer, the rounding used by Python round(). -/
def rhe (x : ℚ) : ℤ :=
  if x - ⌊x⌋ < 1/2 then ⌊x⌋
  else if 1/2 < x - ⌊x⌋ then ⌊x⌋ + 1
  else if ⌊x⌋ % 2 = 0 then ⌊x⌋ else ⌊x⌋ + 1

/-- round1 x is Python round(x, 1). -/
def round1 (x : ℚ) : ℚ := (rhe (10 * x) : ℚ) / 10

/-- round2 x is Python round(x, 2). -/
def round2 (x : ℚ) : ℚ := (rhe (100 * x) : ℚ) / 100

/-- fmt1 renders a rational with one decimal place, the embedding of
the Python format {:.1f} used only inside display strings. -/
def fmt1 (x : ℚ) : String :=
  let y := rhe (10 * x)
  (if y < 0 then "-" else "") ++ toString (y.natAbs / 10) ++ "." ++ toString (y.natAbs % 10)

/-- mean is np.mean on a list of rationals (sum divided by length). -/
def mean (l : List ℚ) : ℚ := l.sum / l.length

/-- Stats is one value of self.condition_drug_map: the per (condition,
drug) lists of ratings, effectiveness scores and side-effect scores.
The review count of the source is the length of the ratings list. -/
structure Stats where
  ratings : List ℚ
  effectiveness_scores : List ℚ
  side_effect_scores : List ℚ
deriving DecidableEq, Repr

/-- Index is self.condition_drug_map: condition key to drug key to
stats, as insertion-ordered association lists. -/
abbrev Index := List (String × List (String × Stats))

/-- Entry is one value of the drug_scores dictionary built inside
find_drugs_for_conditions. -/
structure Entry where
  score : ℚ
  avg_rating : ℚ
  avg_effectiveness : ℚ
  avg_side_effects : ℚ
  review_count : ℕ
  condition : String
deriving DecidableEq, Repr

/-- Recommendation is one element of the recommendations list returned
by predict. -/
structure Recommendation where
  name : String
  confidence : ℚ
  dosage : String
  frequency : String
  effectiveness : String
  side_effects_risk : String
  condition_match : String
deriving DecidableEq, Repr

/-- Explanation is one element of the explanations list. -/
structure Explanation where
  feature : String
  influence : ℚ
  direction : String
deriving DecidableEq, Repr

/-- Interaction is one element of the interactions list. -/
structure Interaction where
  drug1 : String
  drug2 : String
  severity : String
  description : String
deriving DecidableEq, Repr

/-- PredictOutput is the dictionary returned by predict. -/
structure PredictOutput where
  recommendations : List Recommendation
  explanations : List Explanation
  interactions : List Interaction
deriving DecidableEq, Repr

/-- symptom_condition_map is the static synonym table of
match_condition. -/
def symptom_condition_map : List (String × List String) :=
  [("fever", ["infection", "flu", "cold", "virus"]),
   ("cough", ["cold", "flu", "bronchitis", "asthma", "infection"]),
   ("headache", ["migraine", "tension headache", "pain", "headache"]),
   ("fatigue", ["depression", "chronic fatigue", "anemia"]),
   ("nausea", ["nausea", "vomiting", "morning sickness", "motion sickness"]),
   ("dizziness", ["vertigo", "dizziness", "hypertension"]),
   ("chest pain", ["angina", "heart", "cardiac"]),
   ("shortness of breath", ["asthma", "copd", "bronchitis", "heart failure"]),
   ("joint pain", ["arthritis", "pain", "inflammation"]),
   ("muscle aches", ["pain", "fibromyalgia", "muscle"]),
   ("sore throat", ["infection", "strep", "pharyngitis", "throat"]),
   ("runny nose", ["cold", "allergy", "rhinitis", "sinusitis"]),
   ("diabetes", ["diabetes", "blood sugar"]),
   ("hypertension", ["hypertension", "high blood pressure", "blood pressure"]),
   ("asthma", ["asthma", "breathing", "bronchial"]),
   ("heart disease", ["heart", "cardiac", "cardiovascular"]),
   ("depression", ["depression", "mood", "mental"]),
   ("anxiety", ["anxiety", "panic", "stress"])]

/-- addNew acc xs appends to acc the members of xs not already present,
the ordered embedding of adding xs to a Python set. -/
def addNew (acc : List String) (xs : List String) : List String :=
  xs.foldl (fun a x => if a.contains x then a else a ++ [x]) acc

/-- match_condition embeds DrugRecommender.match_condition: collect the
synonym-table rows triggered by a lowercased symptom or history term. -/
def match_condition (symptoms medical_history : List String) : List String :=
  let step := fun (acc : List String) (term : String) =>
    match symptom_condition_map.lookup (pyLower term) with
    | some cs => addNew acc cs
    | none => acc
  medical_history.foldl step (symptoms.foldl step [])

/-- matchesConds embeds the match test on line 186 of model.py:
any(c in db_condition for c in conditions) or condition in db_condition,
where condition is the current element of the outer loop. -/
def matchesConds (conditions : List String) (condition dbc : String) : Bool :=
  conditions.any (fun c => pyIn c dbc) || pyIn condition dbc

/-- consideredTriples lists, in loop order, every (db condition, drug,
stats) triple processed by the drug-scores loop of
find_drugs_for_conditions. -/
def consideredTriples (conditions : List String) (idx : Index) :
    List (String × String × Stats) :=
  conditions.flatMap (fun condition =>
    idx.flatMap (fun p =>
      if matchesConds conditions condition p.1 then
        p.2.map (fun ds => (p.1, ds.1, ds.2))
      else []))

/-- scoreOf is the composite score of lines 188 to 197 of model.py. -/
def scoreOf (st : Stats) : ℚ :=
  mean st.ratings * 0.3 + mean st.effectiveness_scores * 2.0
    - mean st.side_effect_scores * 0.5 + ((min st.ratings.length 20 : ℕ) : ℚ) * 0.1

/-- mkEntry builds the drug_scores value stored for one considered
triple. -/
def mkEntry (t : String × String × Stats) : Entry :=
  { score := scoreOf t.2.2
    avg_rating := mean t.2.2.ratings
    avg_effectiveness := mean t.2.2.effectiveness_scores
    avg_side_effects := mean t.2.2.side_effect_scores
    review_count := t.2.2.ratings.length
    condition := t.1 }

/-- dsUpdate embeds the Python dict update on lines 199 to 207: a new
drug key is appended, an existing key is overwritten in place only when
the new score is strictly greater. -/
def dsUpdate : List (String × Entry) → String → Entry → List (String × Entry)
  | [], d, e => [(d, e)]
  | (k, v) :: rest, d, e =>
    if k = d then (if v.score < e.score then (k, e) :: rest else (k, v) :: rest)
    else (k, v) :: dsUpdate rest d e

/-- scoreDescLe orders drug-score pairs by descending score, the key of
the sorted call on line 210. -/
def scoreDescLe (a b : String × Entry) : Prop := b.2.score ≤ a.2.score

instance : DecidableRel scoreDescLe :=
  fun a b => inferInstanceAs (Decidable (b.2.score ≤ a.2.score))

instance : IsTotal (String × Entry) scoreDescLe :=
  ⟨fun a b => le_total b.2.score a.2.score⟩

instance : IsTrans (String × Entry) scoreDescLe :=
  ⟨fun _ _ _ hab hbc => le_trans hbc hab⟩

/-- find_drugs_for_conditions embeds
DrugRecommender.find_drugs_for_conditions. -/
def find_drugs_for_conditions (conditions : List String) (idx : Index) :
    List (String × Entry) :=
  ((((consideredTriples conditions idx).foldl
      (fun acc t => dsUpdate acc t.2.1 (mkEntry t)) []).insertionSort
        scoreDescLe)).take 5

/-- interaction_pairs is the static interaction table of
check_interactions. -/
def interaction_pairs : List (String × List String) :=
  [("warfarin", ["aspirin", "ibuprofen", "naproxen"]),
   ("metformin", ["contrast dye"]),
   ("lisinopril", ["potassium", "nsaids"]),
   ("simvastatin", ["grapefruit", "erythromycin"]),
   ("sertraline", ["tramadol", "triptans"]),
   ("omeprazole", ["clopidogrel"])]

/-- check_interactions embeds DrugRecommender.check_interactions; the
lowercased medication text current_meds_lower of the source is written
pyLower current_meds. -/
def check_interactions (drug : String) (current_meds : String)
    (allergies : List String) : List Interaction :=
  (interaction_pairs.flatMap fun mc =>
    (if pyIn mc.1 (pyLower current_meds) && mc.2.contains drug then
      [{ drug1 := mc.1, drug2 := drug, severity := "moderate",
         description := pyTitle drug ++ " may interact with " ++ mc.1 ++ ". Consult physician." }]
     else [])
    ++ (if drug == mc.1 then
      mc.2.filterMap (fun conflict =>
        if pyIn conflict (pyLower current_meds) then
          some { drug1 := drug, drug2 := conflict, severity := "high",
                 description := pyTitle drug ++ " has known interaction with " ++ conflict ++ ". Use caution." }
        else none)
     else []))
  ++ allergies.filterMap (fun allergy =>
      if pyIn (pyLower allergy) drug || pyIn drug (pyLower allergy) then
        some { drug1 := drug, drug2 := allergy, severity := "high",
               description := "Patient has documented allergy to " ++ allergy ++ ". AVOID " ++ pyTitle drug ++ "." }
      else none)

/-- base_dosages is the static dosage table of
get_dosage_recommendation. -/
def base_dosages : List (String × String) :=
  [("default", "500mg"), ("antibiotic", "250-500mg"),
   ("pain", "400-600mg"), ("antidepressant", "50-100mg")]

/-- get_dosage_recommendation embeds
DrugRecommender.get_dosage_recommendation; the drug argument and the
dose modifier are unused, as in the source. -/
def get_dosage_recommendation (_drug : String) (age heart_rate : ℤ) :
    String × String :=
  let mf : ℚ × String :=
    if age < 18 then (0.5, "Every 6-8 hours")
    else if 65 < age then (0.75, "Every 8-12 hours")
    else (1.0, "Every 6 hours as needed")
  let frequency :=
    if 100 < heart_rate then mf.2 ++ " (monitor heart rate)"
    else if heart_rate < 60 then mf.2 ++ " (bradycardia noted)"
    else mf.2
  let dosage := ((base_dosages.lookup "default").getD "500mg")
  (dosage, frequency)

/-- effLabel is the effectiveness labelling of lines 389 to 397. -/
def effLabel (e : ℚ) : String :=
  if 4.5 ≤ e then "Highly Effective"
  else if 3.5 ≤ e then "Considerably Effective"
  else if 2.5 ≤ e then "Moderately Effective"
  else "Marginally Effective"

/-- seLabel is the side-effect risk labelling of lines 399 to 408. -/
def seLabel (s : ℚ) : String :=
  if s ≤ 1.5 then "Low Risk"
  else if s ≤ 2.5 then "Mild Risk"
  else if s ≤ 3.5 then "Moderate Risk"
  else "High Risk"

/-- mkRecommendation builds the recommendation dictionary appended on
lines 413 to 421 for one surviving candidate. -/
def mkRecommendation (age heart_rate : ℤ) (de : String × Entry) : Recommendation :=
  { name := pyTitle de.1
    confidence := round2 (min (0.95 : ℚ) (de.2.score / 15))
    dosage := (get_dosage_recommendation de.1 age heart_rate).1
    frequency := (get_dosage_recommendation de.1 age heart_rate).2
    effectiveness := effLabel de.2.avg_effectiveness
    side_effects_risk := seLabel de.2.avg_side_effects
    condition_match := de.2.condition }

/-- explDescLe orders explanations by descending influence, the key of
every sorted call over explanation lists in the source. -/
def explDescLe (a b : Explanation) : Prop := b.influence ≤ a.influence

instance : DecidableRel explDescLe :=
  fun a b => inferInstanceAs (Decidable (b.influence ≤ a.influence))

instance : IsTotal Explanation explDescLe :=
  ⟨fun a b => le_total b.influence a.influence⟩

instance : IsTrans Explanation explDescLe :=
  ⟨fun _ _ _ hab hbc => le_trans hbc hab⟩

/-- fallback_explanations embeds
DrugRecommender.fallback_explanations, the attribution path taken when
no classifier is available. -/
def fallback_explanations (st : Entry) : List Explanation :=
  ([{ feature := "Average patient rating (" ++ fmt1 st.avg_rating ++ "/10)",
      influence := round1 (min (st.avg_rating * 5) 40),
      direction := if 7 ≤ st.avg_rating then "positive" else "negative" },
    { feature := "Drug effectiveness score",
      influence := round1 (st.avg_effectiveness * 8),
      direction := "positive" },
    { feature := "Low side effect profile",
      influence := round1 (max ((5 - st.avg_side_effects) * 6) 5),
      direction := if st.avg_side_effects ≤ 2 then "positive" else "negative" },
    { feature := "Clinical evidence (" ++ toString st.review_count ++ " reviews)",
      influence := round1 (min ((st.review_count : ℚ) * 0.5) 15),
      direction := "positive" }]).insertionSort explDescLe

/-- ageExplanation is the age-factor explanation appended on lines 427
to 431 of predict. -/
def ageExplanation (age : ℤ) : Explanation :=
  { feature := "Age factor (" ++ toString age ++ " years)"
    influence := if 18 ≤ age ∧ age ≤ 65 then 10 else 5
    direction := if 18 ≤ age ∧ age ≤ 65 then "positive" else "negative" }

/-- candidateExplanations is the explanation list contributed by one
surviving candidate: the attribution output, the age factor, and the
heart-rate factor when 60 < heart_rate < 100. -/
def candidateExplanations (explFn : Entry → List Explanation)
    (age heart_rate : ℤ) (e : Entry) : List Explanation :=
  explFn e ++ [ageExplanation age] ++
    (if 60 < heart_rate ∧ heart_rate < 100 then
      [{ feature := "Normal heart rate (" ++ toString heart_rate ++ " bpm)",
         influence := 8, direction := "positive" }]
     else [])

/-- condsOf is the matched-conditions list of predict after the
default substitution of line 371. -/
def condsOf (symptoms medical_history : List String) : List String :=
  if (match_condition symptoms medical_history).isEmpty then
    ["general", "pain", "infection"]
  else match_condition symptoms medical_history

/-- allergyHit embeds the allergy filter of line 382:
any(a.lower() in drug_name.lower() for a in allergies). -/
def allergyHit (allergies : List String) (drug : String) : Bool :=
  allergies.any (fun a => pyIn (pyLower a) (pyLower drug))

/-- survivorsOf is the list of top-3 candidates that pass the allergy
filter, in ranking order. -/
def survivorsOf (idx : Index) (allergies symptoms medical_history : List String) :
    List (String × Entry) :=
  ((find_drugs_for_conditions (condsOf symptoms medical_history) idx).take 3).filter
    (fun de => !allergyHit allergies de.1)

/-- gscRecommendation is the fixed fallback recommendation of lines 448
to 456. -/
def gscRecommendation : Recommendation :=
  { name := "General Supportive Care", confidence := 0.65,
    dosage := "As directed", frequency := "Per physician instructions",
    effectiveness := "Varies", side_effects_risk := "Low Risk",
    condition_match := "general" }

/-- noMatchExplanations is the fixed explanation pair of lines 457 to
465. -/
def noMatchExplanations : List Explanation :=
  [{ feature := "No specific drug indication from symptoms",
     influence := 50, direction := "negative" },
   { feature := "Physician consultation recommended",
     influence := 50, direction := "positive" }]

/-- rawExplanations concatenates the per-candidate explanations across
the surviving candidates, in loop order. -/
def rawExplanations (explFn : Entry → List Explanation) (age heart_rate : ℤ)
    (survivors : List (String × Entry)) : List Explanation :=
  survivors.flatMap (fun de => candidateExplanations explFn age heart_rate de.2)

/-- assembledExplanations is the all_explanations list of predict just
before normalization: the concatenated per-candidate explanations, or
the fixed pair when no candidate survived. -/
def assembledExplanations (explFn : Entry → List Explanation) (idx : Index)
    (age heart_rate : ℤ) (allergies symptoms medical_history : List String) :
    List Explanation :=
  if (survivorsOf idx allergies symptoms medical_history).isEmpty then noMatchExplanations
  else rawExplanations explFn age heart_rate (survivorsOf idx allergies symptoms medical_history)

/-- sumInfluence is the total_influence sum of line 468. -/
def sumInfluence (l : List Explanation) : ℚ := (l.map (·.influence)).sum

/-- normalizeExplanations embeds lines 468 to 471: renormalize the
influences to percentages of the total, rounded to one decimal, but
only when the total is strictly positive. -/
def normalizeExplanations (l : List Explanation) : List Explanation :=
  if 0 < sumInfluence l then
    l.map (fun e => { e with influence := round1 (e.influence / sumInfluence l * 100) })
  else l

/-- predictWith embeds DrugRecommender.predict, parametrised by the
condition index and by the attribution engine used for the per
candidate explanations. -/
def predictWith (explFn : Entry → List Explanation) (idx : Index)
    (age : ℤ) (_gender : String) (heart_rate : ℤ) (_blood_type : String)
    (allergies medical_history symptoms : List String)
    (current_medications : String) : PredictOutput :=
  { recommendations :=
      if ((survivorsOf idx allergies symptoms medical_history).map
            (mkRecommendation age heart_rate)).isEmpty
      then [gscRecommendation]
      else (survivorsOf idx allergies symptoms medical_history).map
            (mkRecommendation age heart_rate)
    explanations :=
      ((normalizeExplanations
          (assembledExplanations explFn idx age heart_rate allergies symptoms
            medical_history)).insertionSort explDescLe).take 6
    interactions :=
      (survivorsOf idx allergies symptoms medical_history).flatMap
        (fun de => check_interactions de.1 current_medications allergies) }

/-- predict is predictWith instantiated at the fallback attribution
engine, the path the source takes when no classifier was trained. -/
def predict (idx : Index) (age : ℤ) (gender : String) (heart_rate : ℤ)
    (blood_type : String) (allergies medical_history symptoms : List String)
    (current_medications : String) : PredictOutput :=
  predictWith fallback_explanations idx age gender heart_rate blood_type
    allergies medical_history symptoms current_medications

/-! ## Shared concrete fixtures used by witnesses and counterexamples -/

/-- stAspirin is a small concrete stats record: two reviews, rating 8,
effectiveness 4, side effects 2. -/
def stAspirin : Stats :=
  { ratings := [8, 8], effectiveness_scores := [4, 4], side_effect_scores := [2, 2] }

/-- idxPain is a one-condition index mapping the condition pain to the
single drug aspirin. -/
def idxPain : Index := [("pain", [("aspirin", stAspirin)])]

/-- stBad is a concrete stats record whose composite score is negative:
one review with rating 1, effectiveness 1, side effects 5. -/
def stBad : Stats :=
  { ratings := [1], effectiveness_scores := [1], side_effect_scores := [5] }

/-- idxBad is a one-condition index holding only the low-scoring drug. -/
def idxBad : Index := [("pain", [("badpill", stBad)])]

/-- stEven is a concrete stats record whose four fallback influences
are 10, 10, 10 and 1. -/
def stEven : Stats :=
  { ratings := [2, 2], effectiveness_scores := [5/4, 5/4], side_effect_scores := [10/3, 10/3] }

/-- idxTwo is an index with two drugs of identical stats under the
condition pain, so that a prediction assembles twelve explanations. -/
def idxTwo : Index := [("pain", [("alpha", stEven), ("beta", stEven)])]

/-- stZero is a concrete stats record whose candidate explanation
influences sum to exactly zero for a 30-year-old with heart rate 70. -/
def stZero : Stats :=
  { ratings := [-41], effectiveness_scores := [363/16], side_effect_scores := [5] }

/-- idxZero is a one-condition index holding only the drug with
zero-total explanation influences. -/
def idxZero : Index := [("pain", [("oddpill", stZero)])]

/-! ## Rounding bounds -/

/-- rhe stays within one half of its argument. -/
theorem rhe_bounds (x : ℚ) : x - 1/2 ≤ (rhe x : ℚ) ∧ (rhe x : ℚ) ≤ x + 1/2 := by
  unfold rhe
  have h1 : ((⌊x⌋ : ℤ) : ℚ) ≤ x := Int.floor_le x
  have h2 : x - 1 < ((⌊x⌋ : ℤ) : ℚ) := Int.sub_one_lt_floor x
  split_ifs with ha hb hc <;> constructor <;> push_cast <;> linarith

/-- round1 stays within one twentieth of its argument. -/
theorem round1_abs_sub (x : ℚ) : |round1 x - x| ≤ 1/20 := by
  have h := rhe_bounds (10 * x)
  rw [abs_le]
  unfold round1
  constructor <;> [linarith [h.1]; linarith [h.2]]

/-- round2 stays within one two-hundredth of its argument. -/
theorem round2_abs_sub (x : ℚ) : |round2 x - x| ≤ 1/200 := by
  have h := rhe_bounds (100 * x)
  rw [abs_le]
  unfold round2
  constructor <;> [linarith [h.1]; linarith [h.2]]

/-- round2 of a value at most 0.95 is itself at most 0.95, because the
scaled rounding is an integer at most 95. -/
theorem round2_le_095 {x : ℚ} (hx : x ≤ 0.95) : round2 x ≤ 0.95 := by
  have h := (rhe_bounds (100 * x)).2
  have h96 : (rhe (100 * x) : ℚ) < 96 := by
    calc (rhe (100 * x) : ℚ) ≤ 100 * x + 1/2 := h
    _ ≤ 100 * (19/20) + 1/2 := by norm_num at hx ⊢; linarith
    _ < 96 := by norm_num
  have h96i : rhe (100 * x) < 96 := by exact_mod_cast h96
  have h95 : rhe (100 * x) ≤ 95 := by omega
  unfold round2
  have : (rhe (100 * x) : ℚ) ≤ 95 := by exact_mod_cast h95
  norm_num
  linarith

/-- round2 of a nonnegative value is nonnegative, because the scaled
rounding is an integer above minus one. -/
theorem round2_nonneg {x : ℚ} (hx : 0 ≤ x) : 0 ≤ round2 x := by
  have h := (rhe_bounds (100 * x)).1
  have hneg : (-1 : ℚ) < (rhe (100 * x) : ℚ) := by linarith
  have hnegi : (-1 : ℤ) < rhe (100 * x) := by exact_mod_cast hneg
  have h0 : 0 ≤ rhe (100 * x) := by omega
  unfold round2
  have : (0 : ℚ) ≤ (rhe (100 * x) : ℚ) := by exact_mod_cast h0
  positivity

/-! ## Claim C8: the dosage rule engine -/

/-- C8: the dosage engine is a pure function of age and heart rate; for
age 70 and heart rate 110 the frequency is Every 8-12 hours with the
monitor annotation, for age 10 and heart rate 50 it is Every 6-8 hours
with the bradycardia annotation, and in general the frequency is the
age-band text with the heart-rate annotation appended. -/
theorem c8_dosage_frequency :
    (get_dosage_recommendation "x" 70 110).2 = "Every 8-12 hours (monitor heart rate)" ∧
    (get_dosage_recommendation "x" 10 50).2 = "Every 6-8 hours (bradycardia noted)" ∧
    ∀ (d : String) (age heart_rate : ℤ),
      (get_dosage_recommendation d age heart_rate).2 =
        (if age < 18 then "Every 6-8 hours"
         else if 65 < age then "Every 8-12 hours"
         else "Every 6 hours as needed") ++
        (if 100 < heart_rate then " (monitor heart rate)"
         else if heart_rate < 60 then " (bradycardia noted)"
         else "") := by
  refine ⟨by decide, by decide, ?_⟩
  intro d age heart_rate
  unfold get_dosage_recommendation
  split_ifs <;> simp_all

/-! ## Claim C6: direction-dependent interaction severity -/

/-- C6: when the lowercased current-medications text contains warfarin
and the candidate is aspirin, a moderate interaction record is emitted;
when the candidate is warfarin and the text contains aspirin, a high
interaction record is emitted. -/
theorem c6_interaction_direction (meds : String) (allergies : List String) :
    (pyIn "warfarin" (pyLower meds) = true →
      ({ drug1 := "warfarin", drug2 := "aspirin", severity := "moderate",
         description := "Aspirin may interact with warfarin. Consult physician." } : Interaction)
        ∈ check_interactions "aspirin" meds allergies) ∧
    (pyIn "aspirin" (pyLower meds) = true →
      ({ drug1 := "warfarin", drug2 := "aspirin", severity := "high",
         description := "Warfarin has known interaction with aspirin. Use caution." } : Interaction)
        ∈ check_interactions "warfarin" meds allergies) := by
  constructor
  · intro h
    unfold check_interactions
    rw [List.mem_append, List.mem_flatMap]
    left
    refine ⟨("warfarin", ["aspirin", "ibuprofen", "naproxen"]), by decide, ?_⟩
    rw [List.mem_append]
    left
    rw [h]
    simp only [Bool.true_and]
    rw [show (["aspirin", "ibuprofen", "naproxen"].contains "aspirin") = true from by decide]
    simp only [if_true]
    rw [show pyTitle "aspirin" = "Aspirin" from by decide]
    decide
  · intro h
    unfold check_interactions
    rw [List.mem_append, List.mem_flatMap]
    left
    refine ⟨("warfarin", ["aspirin", "ibuprofen", "naproxen"]), by decide, ?_⟩
    rw [List.mem_append]
    right
    rw [show (("warfarin" : String) == "warfarin") = true from by decide]
    simp only [if_true]
    rw [show pyTitle "warfarin" = "Warfarin" from by decide]
    rw [List.mem_filterMap]
    refine ⟨"aspirin", by decide, ?_⟩
    rw [h]
    decide

/-- C6 witness: both directions at the concrete medication strings of
the specification. -/
theorem c6_interaction_direction_witness :
    pyIn "warfarin" (pyLower "warfarin") = true ∧
    ({ drug1 := "warfarin", drug2 := "aspirin", severity := "moderate",
       description := "Aspirin may interact with warfarin. Consult physician." } : Interaction)
      ∈ check_interactions "aspirin" "warfarin" [] ∧
    ({ drug1 := "warfarin", drug2 := "aspirin", severity := "high",
       description := "Warfarin has known interaction with aspirin. Use caution." } : Interaction)
      ∈ check_interactions "warfarin" "aspirin" [] :=
  ⟨by decide, (c6_interaction_direction "warfarin" []).1 (by decide),
   (c6_interaction_direction "aspirin" []).2 (by decide)⟩

/-! ## Claim C3: which condition and drug pairs the scorer considers -/

/-- specSymmetricOverlap is the symmetric substring-containment test as
the specification words it: some matched term is a substring of the db
key, or the db key is a substring of some matched term. -/
def specSymmetricOverlap (conditions : List String) (dbc : String) : Bool :=
  conditions.any (fun c => pyIn c dbc || pyIn dbc c)

/-- C3 amended: a (db condition, drug, stats) triple is considered by
the scorer exactly when the pair is in the index and at least one
matched term is a substring of the db condition key; the reverse
containment alone never triggers consideration. -/
theorem c3_considered_pairs (conditions : List String) (idx : Index)
    (dbc d : String) (st : Stats) :
    (dbc, d, st) ∈ consideredTriples conditions idx ↔
      (∃ drugs, (dbc, drugs) ∈ idx ∧ (d, st) ∈ drugs) ∧
      ∃ c ∈ conditions, pyIn c dbc = true := by
  unfold consideredTriples
  constructor
  · intro h
    rw [List.mem_flatMap] at h
    obtain ⟨cond, hcond, h⟩ := h
    rw [List.mem_flatMap] at h
    obtain ⟨p, hp, h⟩ := h
    by_cases hm : matchesConds conditions cond p.1 = true
    · rw [if_pos hm] at h
      rw [List.mem_map] at h
      obtain ⟨ds, hds, heq⟩ := h
      have h1 : p.1 = dbc := congrArg Prod.fst heq
      have h2 : ds.1 = d := congrArg (fun t => t.2.1) heq
      have h3 : ds.2 = st := congrArg (fun t => t.2.2) heq
      have hds2 : (d, st) ∈ p.2 := by
        rw [← h2, ← h3]; exact hds
      have hidx2 : (dbc, p.2) ∈ idx := by
        rw [← h1]; exact hp
      refine ⟨⟨p.2, hidx2, hds2⟩, ?_⟩
      rw [← h1]
      unfold matchesConds at hm
      rw [Bool.or_eq_true] at hm
      rcases hm with hm | hm
      · rwa [List.any_eq_true] at hm
      · exact ⟨cond, hcond, hm⟩
    · rw [if_neg hm] at h
      simp at h
  · rintro ⟨⟨drugs, hidx, hds⟩, c, hc, hsub⟩
    rw [List.mem_flatMap]
    refine ⟨c, hc, ?_⟩
    rw [List.mem_flatMap]
    refine ⟨(dbc, drugs), hidx, ?_⟩
    have hm : matchesConds conditions c dbc = true := by
      unfold matchesConds
      rw [Bool.or_eq_true]
      left
      rw [List.any_eq_true]
      exact ⟨c, hc, hsub⟩
    rw [if_pos hm, List.mem_map]
    exact ⟨(d, st), hds, rfl⟩

/-- C3 counterexample: for the matched term tension headache and the db
key headache the symmetric overlap of the claim holds, yet the scorer
considers no pair at all, because only the direction matched term
inside db key is checked. -/
theorem c3_counterexample :
    specSymmetricOverlap ["tension headache"] "headache" = true ∧
    consideredTriples ["tension headache"] [("headache", [("ibuprofen", stAspirin)])] = [] := by
  decide

/-! ## Projection lemmas for predictWith -/

/-- The recommendations component of predictWith, by definition. -/
theorem predictWith_recommendations (explFn : Entry → List Explanation) (idx : Index)
    (age : ℤ) (gender : String) (heart_rate : ℤ) (blood_type : String)
    (allergies medical_history symptoms : List String) (current_medications : String) :
    (predictWith explFn idx age gender heart_rate blood_type allergies medical_history
        symptoms current_medications).recommendations =
      if ((survivorsOf idx allergies symptoms medical_history).map
            (mkRecommendation age heart_rate)).isEmpty
      then [gscRecommendation]
      else (survivorsOf idx allergies symptoms medical_history).map
            (mkRecommendation age heart_rate) := rfl

/-- The explanations component of predictWith, by definition. -/
theorem predictWith_explanations (explFn : Entry → List Explanation) (idx : Index)
    (age : ℤ) (gender : String) (heart_rate : ℤ) (blood_type : String)
    (allergies medical_history symptoms : List String) (current_medications : String) :
    (predictWith explFn idx age gender heart_rate blood_type allergies medical_history
        symptoms current_medications).explanations =
      ((normalizeExplanations
          (assembledExplanations explFn idx age heart_rate allergies symptoms
            medical_history)).insertionSort explDescLe).take 6 := rfl

/-- The interactions component of predictWith, by definition. -/
theorem predictWith_interactions (explFn : Entry → List Explanation) (idx : Index)
    (age : ℤ) (gender : String) (heart_rate : ℤ) (blood_type : String)
    (allergies medical_history symptoms : List String) (current_medications : String) :
    (predictWith explFn idx age gender heart_rate blood_type allergies medical_history
        symptoms current_medications).interactions =
      (survivorsOf idx allergies symptoms medical_history).flatMap
        (fun de => check_interactions de.1 current_medications allergies) := rfl

/-- When at least one candidate survives the allergy filter, the
returned recommendations are exactly the per-survivor records. -/
theorem predictWith_recommendations_of_ne (explFn : Entry → List Explanation) (idx : Index)
    (age : ℤ) (gender : String) (heart_rate : ℤ) (blood_type : String)
    (allergies medical_history symptoms : List String) (current_medications : String)
    (hsurv : survivorsOf idx allergies symptoms medical_history ≠ []) :
    (predictWith explFn idx age gender heart_rate blood_type allergies medical_history
        symptoms current_medications).recommendations =
      (survivorsOf idx allergies symptoms medical_history).map
        (mkRecommendation age heart_rate) := by
  rw [predictWith_recommendations, if_neg]
  rw [List.isEmpty_iff, List.map_eq_nil_iff]
  exact hsurv

/-! ## Claim C9: zero total influence skips renormalization -/

/-- C9: when the total influence of the assembled explanation list is
zero, predict leaves the influences unchanged (the returned list is the
sorted truncation of the unnormalized list); the normalization divide
is guarded and never runs with a zero denominator. -/
theorem c9_zero_total_skips (explFn : Entry → List Explanation) (idx : Index)
    (age : ℤ) (gender : String) (heart_rate : ℤ) (blood_type : String)
    (allergies medical_history symptoms : List String) (current_medications : String)
    (h : sumInfluence (assembledExplanations explFn idx age heart_rate allergies
          symptoms medical_history) = 0) :
    (predictWith explFn idx age gender heart_rate blood_type allergies medical_history
        symptoms current_medications).explanations =
      ((assembledExplanations explFn idx age heart_rate allergies symptoms
          medical_history).insertionSort explDescLe).take 6 := by
  rw [predictWith_explanations]
  have hb : ¬ (0 < sumInfluence (assembledExplanations explFn idx age heart_rate
      allergies symptoms medical_history)) := by
    rw [h]
    exact lt_irrefl 0
  unfold normalizeExplanations
  rw [if_neg hb]

/-- C9 witness: a concrete index and patient whose assembled influences
cancel to zero, on which predict returns the unnormalized influences. -/
theorem c9_zero_total_skips_witness :
    sumInfluence (assembledExplanations fallback_explanations idxZero 30 70 []
      ["headache"] []) = 0 ∧
    (predict idxZero 30 "F" 70 "O" [] [] ["headache"] "").explanations =
      ((assembledExplanations fallback_explanations idxZero 30 70 [] ["headache"]
          []).insertionSort explDescLe).take 6 :=
  ⟨by decide, c9_zero_total_skips fallback_explanations idxZero 30 "F" 70 "O" [] []
    ["headache"] "" (by decide)⟩

/-! ## Claim C4: the no-survivor fallback -/

/-- C4: when no scored candidate survives the allergy filter, predict
returns exactly one recommendation, General Supportive Care with
confidence 0.65, and exactly two explanations, each with influence 50. -/
theorem c4_no_survivor_fallback (explFn : Entry → List Explanation) (idx : Index)
    (age : ℤ) (gender : String) (heart_rate : ℤ) (blood_type : String)
    (allergies medical_history symptoms : List String) (current_medications : String)
    (h : survivorsOf idx allergies symptoms medical_history = []) :
    (predictWith explFn idx age gender heart_rate blood_type allergies medical_history
        symptoms current_medications).recommendations = [gscRecommendation] ∧
    (predictWith explFn idx age gender heart_rate blood_type allergies medical_history
        symptoms current_medications).recommendations.length = 1 ∧
    (∀ r ∈ (predictWith explFn idx age gender heart_rate blood_type allergies
        medical_history symptoms current_medications).recommendations,
      r.name = "General Supportive Care" ∧ r.confidence = 0.65) ∧
    (predictWith explFn idx age gender heart_rate blood_type allergies medical_history
        symptoms current_medications).explanations.length = 2 ∧
    (∀ e ∈ (predictWith explFn idx age gender heart_rate blood_type allergies
        medical_history symptoms current_medications).explanations,
      e.influence = 50) := by
  have hrec : (predictWith explFn idx age gender heart_rate blood_type allergies
      medical_history symptoms current_medications).recommendations = [gscRecommendation] := by
    rw [predictWith_recommendations, h]
    rfl
  have hassem : assembledExplanations explFn idx age heart_rate allergies symptoms
      medical_history = noMatchExplanations := by
    unfold assembledExplanations
    rw [h]
    rfl
  have hexp : (predictWith explFn idx age gender heart_rate blood_type allergies
      medical_history symptoms current_medications).explanations = noMatchExplanations := by
    rw [predictWith_explanations, hassem]
    decide
  refine ⟨hrec, by rw [hrec]; rfl, ?_, by rw [hexp]; rfl, ?_⟩
  · intro r hr
    rw [hrec, List.mem_singleton] at hr
    subst hr
    exact ⟨rfl, rfl⟩
  · intro e he
    rw [hexp] at he
    rcases List.mem_cons.mp he with h1 | h1
    · rw [h1]
    · rcases List.mem_cons.mp h1 with h2 | h2
      · rw [h2]
      · exact absurd h2 (List.not_mem_nil e)

/-- C4 witness: a patient allergic to the only scored drug gets the
fixed fallback output. -/
theorem c4_no_survivor_fallback_witness :
    survivorsOf idxPain ["aspirin"] ["headache"] [] = [] ∧
    ((predict idxPain 30 "F" 70 "O" ["aspirin"] [] ["headache"] "").recommendations
        = [gscRecommendation] ∧
      (predict idxPain 30 "F" 70 "O" ["aspirin"] [] ["headache"] "").recommendations.length = 1 ∧
      (∀ r ∈ (predict idxPain 30 "F" 70 "O" ["aspirin"] [] ["headache"] "").recommendations,
        r.name = "General Supportive Care" ∧ r.confidence = 0.65) ∧
      (predict idxPain 30 "F" 70 "O" ["aspirin"] [] ["headache"] "").explanations.length = 2 ∧
      (∀ e ∈ (predict idxPain 30 "F" 70 "O" ["aspirin"] [] ["headache"] "").explanations,
        e.influence = 50)) :=
  ⟨by decide, c4_no_survivor_fallback fallback_explanations idxPain 30 "F" 70 "O"
    ["aspirin"] [] ["headache"] "" (by decide)⟩

/-! ## Claim C10: interactions only from recommended drugs -/

/-- C10: every returned interaction record was produced for a surviving
candidate whose recommendation is also returned; with no survivors (the
fallback case) the interactions list is empty. -/
theorem c10_interactions_from_recommended (explFn : Entry → List Explanation) (idx : Index)
    (age : ℤ) (gender : String) (heart_rate : ℤ) (blood_type : String)
    (allergies medical_history symptoms : List String) (current_medications : String) :
    (∀ i ∈ (predictWith explFn idx age gender heart_rate blood_type allergies
        medical_history symptoms current_medications).interactions,
      ∃ de ∈ survivorsOf idx allergies symptoms medical_history,
        i ∈ check_interactions de.1 current_medications allergies ∧
        mkRecommendation age heart_rate de ∈
          (predictWith explFn idx age gender heart_rate blood_type allergies
            medical_history symptoms current_medications).recommendations) ∧
    (survivorsOf idx allergies symptoms medical_history = [] →
      (predictWith explFn idx age gender heart_rate blood_type allergies medical_history
        symptoms current_medications).interactions = []) := by
  constructor
  · intro i hi
    rw [predictWith_interactions, List.mem_flatMap] at hi
    obtain ⟨de, hde, hic⟩ := hi
    have hne : survivorsOf idx allergies symptoms medical_history ≠ [] := by
      intro hnil
      rw [hnil] at hde
      exact absurd hde (List.not_mem_nil de)
    refine ⟨de, hde, hic, ?_⟩
    rw [predictWith_recommendations_of_ne explFn idx age gender heart_rate blood_type
      allergies medical_history symptoms current_medications hne]
    exact List.mem_map_of_mem _ hde
  · intro h
    rw [predictWith_interactions, h]
    rfl

/-- C10 witness: with current medications warfarin and the aspirin
index, the returned moderate interaction comes from the surviving and
recommended aspirin candidate. -/
theorem c10_interactions_from_recommended_witness :
    ∃ de ∈ survivorsOf idxPain [] ["headache"] [],
      ({ drug1 := "warfarin", drug2 := "aspirin", severity := "moderate",
         description := "Aspirin may interact with warfarin. Consult physician." } : Interaction)
        ∈ check_interactions de.1 "warfarin" [] ∧
      mkRecommendation 30 70 de ∈
        (predict idxPain 30 "F" 70 "O" [] [] ["headache"] "warfarin").recommendations :=
  (c10_interactions_from_recommended fallback_explanations idxPain 30 "F" 70 "O" [] []
    ["headache"] "warfarin").1 _ (by decide)

/-! ## Claim C2: the allergy exclusion filter -/

/-- mem_survivorsOf_iff characterises survival: the candidate is among
the top three scored drugs and the allergy filter does not fire. -/
theorem mem_survivorsOf_iff (idx : Index) (allergies symptoms medical_history : List String)
    (d : String) (e : Entry) :
    (d, e) ∈ survivorsOf idx allergies symptoms medical_history ↔
      (d, e) ∈ (find_drugs_for_conditions (condsOf symptoms medical_history) idx).take 3 ∧
      allergyHit allergies d = false := by
  unfold survivorsOf
  rw [List.mem_filter]
  constructor
  · rintro ⟨h1, h2⟩
    refine ⟨h1, ?_⟩
    have h2b : (!allergyHit allergies d) = true := h2
    cases hval : allergyHit allergies d with
    | false => rfl
    | true => rw [hval] at h2b; exact absurd h2b (by decide)
  · rintro ⟨h1, h2⟩
    refine ⟨h1, ?_⟩
    show (!allergyHit allergies d) = true
    rw [h2]
    rfl

/-- specAllergyConflict is the exclusion test as the claim words it:
the candidate name case-insensitively contains, or is contained by, at
least one patient allergy string. -/
def specAllergyConflict (allergies : List String) (drug : String) : Bool :=
  allergies.any (fun a => pyIn (pyLower a) (pyLower drug) || pyIn (pyLower drug) (pyLower a))

/-- C2 amended: a top-3 candidate survives the allergy filter exactly
when no lowercased allergy string is a substring of its lowercased
name; containment in the other direction does not exclude.  When any
candidate survives, the recommendations are exactly the survivor
records. -/
theorem c2_allergy_filter (explFn : Entry → List Explanation) (idx : Index)
    (age : ℤ) (gender : String) (heart_rate : ℤ) (blood_type : String)
    (allergies medical_history symptoms : List String) (current_medications : String)
    (d : String) (e : Entry)
    (hmem : (d, e) ∈ (find_drugs_for_conditions (condsOf symptoms medical_history) idx).take 3) :
    ((d, e) ∈ survivorsOf idx allergies symptoms medical_history ↔
      ¬ ∃ a ∈ allergies, pyIn (pyLower a) (pyLower d) = true) ∧
    (survivorsOf idx allergies symptoms medical_history ≠ [] →
      (predictWith explFn idx age gender heart_rate blood_type allergies medical_history
          symptoms current_medications).recommendations =
        (survivorsOf idx allergies symptoms medical_history).map
          (mkRecommendation age heart_rate)) := by
  constructor
  · rw [mem_survivorsOf_iff]
    simp only [hmem, true_and]
    unfold allergyHit
    constructor
    · intro hf hex
      have hany := List.any_eq_true.mpr hex
      rw [hf] at hany
      exact absurd hany (by decide)
    · intro hno
      cases hany : allergies.any (fun a => pyIn (pyLower a) (pyLower d)) with
      | false => rfl
      | true => exact absurd (List.any_eq_true.mp hany) hno
  · intro hne
    exact predictWith_recommendations_of_ne explFn idx age gender heart_rate blood_type
      allergies medical_history symptoms current_medications hne

/-- C2 counterexample: the drug aspirin is a top-3 candidate and its
name is contained in the allergy string aspirin tablets, so the claim
says it is excluded, yet predict still recommends Aspirin, because the
filter only tests allergy-inside-name. -/
theorem c2_counterexample :
    specAllergyConflict ["aspirin tablets"] "aspirin" = true ∧
    ("aspirin", mkEntry ("pain", "aspirin", stAspirin)) ∈
      (find_drugs_for_conditions (condsOf ["headache"] []) idxPain).take 3 ∧
    (predict idxPain 30 "F" 70 "O" ["aspirin tablets"] [] ["headache"] "").recommendations.map
      (fun r => r.name) = ["Aspirin"] := by
  decide

/-- C2 witness: with no allergies the aspirin candidate survives, and
with allergy aspirin it is excluded, matching the amended filter. -/
theorem c2_allergy_filter_witness :
    (("aspirin", mkEntry ("pain", "aspirin", stAspirin)) ∈
        survivorsOf idxPain [] ["headache"] [] ↔
      ¬ ∃ a ∈ ([] : List String), pyIn (pyLower a) (pyLower "aspirin") = true) ∧
    (survivorsOf idxPain [] ["headache"] [] ≠ [] →
      (predict idxPain 30 "F" 70 "O" [] [] ["headache"] "").recommendations =
        (survivorsOf idxPain [] ["headache"] []).map (mkRecommendation 30 70)) :=
  c2_allergy_filter fallback_explanations idxPain 30 "F" 70 "O" [] [] ["headache"] ""
    "aspirin" (mkEntry ("pain", "aspirin", stAspirin)) (by decide)

/-! ## Claim C5: recommendation count and confidence bounds -/

/-- C5 amended: with a matched condition and a surviving candidate,
predict returns one to three recommendations; each confidence equals
round(min(0.95, score/15), 2), is at most 0.95, and is nonnegative
whenever the originating score is nonnegative.  A negative candidate
score makes the confidence negative, so the unconditional lower bound 0
of the claim does not hold. -/
theorem c5_recommendation_bounds (explFn : Entry → List Explanation) (idx : Index)
    (age : ℤ) (gender : String) (heart_rate : ℤ) (blood_type : String)
    (allergies medical_history symptoms : List String) (current_medications : String)
    (_hmatch : match_condition symptoms medical_history ≠ [])
    (hsurv : survivorsOf idx allergies symptoms medical_history ≠ []) :
    (1 ≤ (predictWith explFn idx age gender heart_rate blood_type allergies
        medical_history symptoms current_medications).recommendations.length ∧
      (predictWith explFn idx age gender heart_rate blood_type allergies
        medical_history symptoms current_medications).recommendations.length ≤ 3) ∧
    (∀ r ∈ (predictWith explFn idx age gender heart_rate blood_type allergies
        medical_history symptoms current_medications).recommendations,
      ∃ de ∈ survivorsOf idx allergies symptoms medical_history,
        r = mkRecommendation age heart_rate de ∧
        r.confidence = round2 (min (0.95 : ℚ) (de.2.score / 15)) ∧
        r.confidence ≤ 0.95 ∧
        (0 ≤ de.2.score → 0 ≤ r.confidence)) := by
  have hrecs := predictWith_recommendations_of_ne explFn idx age gender heart_rate
    blood_type allergies medical_history symptoms current_medications hsurv
  constructor
  · constructor
    · rw [hrecs, List.length_map]
      exact List.length_pos.mpr hsurv
    · rw [hrecs, List.length_map]
      unfold survivorsOf
      exact le_trans (List.length_filter_le _ _) (List.length_take_le _ _)
  · intro r hr
    rw [hrecs, List.mem_map] at hr
    obtain ⟨de, hde, heq⟩ := hr
    refine ⟨de, hde, heq.symm, ?_, ?_, ?_⟩
    · rw [← heq]
      rfl
    · rw [← heq]
      exact round2_le_095 (min_le_left _ _)
    · intro hscore
      rw [← heq]
      exact round2_nonneg (le_min (by norm_num) (div_nonneg hscore (by norm_num)))

/-- C5 witness: the aspirin index with no allergies yields exactly one
recommendation with the stated confidence properties. -/
theorem c5_recommendation_bounds_witness :
    match_condition ["headache"] [] ≠ [] ∧
    survivorsOf idxPain [] ["headache"] [] ≠ [] ∧
    ((1 ≤ (predict idxPain 30 "F" 70 "O" [] [] ["headache"] "").recommendations.length ∧
      (predict idxPain 30 "F" 70 "O" [] [] ["headache"] "").recommendations.length ≤ 3) ∧
    (∀ r ∈ (predict idxPain 30 "F" 70 "O" [] [] ["headache"] "").recommendations,
      ∃ de ∈ survivorsOf idxPain [] ["headache"] [],
        r = mkRecommendation 30 70 de ∧
        r.confidence = round2 (min (0.95 : ℚ) (de.2.score / 15)) ∧
        r.confidence ≤ 0.95 ∧
        (0 ≤ de.2.score → 0 ≤ r.confidence))) :=
  ⟨by decide, by decide, c5_recommendation_bounds fallback_explanations idxPain 30 "F" 70
    "O" [] [] ["headache"] "" (by decide) (by decide)⟩

/-- C5 counterexample: a candidate with one rating of 1, effectiveness
1 and side effects 5 scores minus one tenth, survives (no allergies),
and predict returns it with confidence minus one hundredth, outside
the claimed interval. -/
theorem c5_counterexample :
    match_condition ["headache"] [] ≠ [] ∧
    survivorsOf idxBad [] ["headache"] [] ≠ [] ∧
    ∃ r ∈ (predict idxBad 30 "F" 70 "O" [] [] ["headache"] "").recommendations,
      r.confidence < 0 := by
  decide

/-! ## Claim C1: the normalized explanation sum and truncation -/

/-- sumInfluence of the empty list is zero. -/
theorem sumInfluence_nil : sumInfluence [] = 0 := rfl

/-- sumInfluence splits off the head influence. -/
theorem sumInfluence_cons (e : Explanation) (l : List Explanation) :
    sumInfluence (e :: l) = e.influence + sumInfluence l := by
  simp [sumInfluence]

/-- Rounding each list element to one decimal moves the sum by at most
one twentieth per element. -/
theorem sum_map_round1_bound (xs : List ℚ) :
    |(xs.map round1).sum - xs.sum| ≤ xs.length * (1/20) := by
  induction xs with
  | nil => simp
  | cons x xs ih =>
    simp only [List.map_cons, List.sum_cons, List.length_cons]
    have h1 := round1_abs_sub x
    calc |round1 x + (xs.map round1).sum - (x + xs.sum)|
        = |(round1 x - x) + ((xs.map round1).sum - xs.sum)| := by ring_nf
      _ ≤ |round1 x - x| + |(xs.map round1).sum - xs.sum| := abs_add _ _
      _ ≤ 1/20 + xs.length * (1/20) := add_le_add h1 ih
      _ = ((xs.length + 1 : ℕ) : ℚ) * (1/20) := by push_cast; ring

/-- Dividing every influence by T and scaling by 100 scales the sum. -/
theorem sum_map_div_mul (l : List Explanation) (T : ℚ) :
    (l.map (fun e => e.influence / T * 100)).sum = sumInfluence l / T * 100 := by
  induction l with
  | nil => simp [sumInfluence_nil]
  | cons e l ih =>
    rw [List.map_cons, List.sum_cons, ih, sumInfluence_cons]
    ring

/-- With a positive total, the renormalized influences sum to 100 up to
the rounding slack of one twentieth per explanation. -/
theorem normalize_sum_bound (l : List Explanation) (hpos : 0 < sumInfluence l) :
    |sumInfluence (normalizeExplanations l) - 100| ≤ l.length * (1/20) := by
  unfold normalizeExplanations
  rw [if_pos hpos]
  have hT : sumInfluence l ≠ 0 := ne_of_gt hpos
  have h1 : sumInfluence (l.map (fun e =>
      { e with influence := round1 (e.influence / sumInfluence l * 100) })) =
      ((l.map (fun e => e.influence / sumInfluence l * 100)).map round1).sum := by
    unfold sumInfluence
    rw [List.map_map, List.map_map]
    rfl
  have h2 : (l.map (fun e => e.influence / sumInfluence l * 100)).sum = 100 := by
    rw [sum_map_div_mul, div_self hT, one_mul]
  rw [h1]
  calc |((l.map (fun e => e.influence / sumInfluence l * 100)).map round1).sum - 100|
      = |((l.map (fun e => e.influence / sumInfluence l * 100)).map round1).sum -
          (l.map (fun e => e.influence / sumInfluence l * 100)).sum| := by rw [h2]
    _ ≤ (l.map (fun e => e.influence / sumInfluence l * 100)).length * (1/20) :=
        sum_map_round1_bound _
    _ = l.length * (1/20) := by rw [List.length_map]

/-- C1 amended: when the total influence of the assembled explanation
list is positive, the influences of the full renormalized list (before
sorting and truncation) sum to 100 within one twentieth per
explanation, and the returned list has length at most 6.  After
truncation to the top 6 the returned influences can sum far below 100,
so the claimed bound on the returned list itself fails. -/
theorem c1_normalized_sum (explFn : Entry → List Explanation) (idx : Index)
    (age : ℤ) (gender : String) (heart_rate : ℤ) (blood_type : String)
    (allergies medical_history symptoms : List String) (current_medications : String)
    (hpos : 0 < sumInfluence (assembledExplanations explFn idx age heart_rate allergies
        symptoms medical_history)) :
    |sumInfluence (normalizeExplanations (assembledExplanations explFn idx age heart_rate
        allergies symptoms medical_history)) - 100| ≤
      (assembledExplanations explFn idx age heart_rate allergies symptoms
        medical_history).length * (1/20) ∧
    (predictWith explFn idx age gender heart_rate blood_type allergies medical_history
        symptoms current_medications).explanations.length ≤ 6 :=
  ⟨normalize_sum_bound _ hpos, by
    rw [predictWith_explanations]
    exact List.length_take_le _ _⟩

/-- C1 witness: the one-candidate aspirin prediction has positive total
influence, a near-100 normalized sum, and at most six explanations. -/
theorem c1_normalized_sum_witness :
    0 < sumInfluence (assembledExplanations fallback_explanations idxPain 30 70 []
      ["headache"] []) ∧
    (|sumInfluence (normalizeExplanations (assembledExplanations fallback_explanations
        idxPain 30 70 [] ["headache"] [])) - 100| ≤
      (assembledExplanations fallback_explanations idxPain 30 70 [] ["headache"]
        []).length * (1/20) ∧
    (predict idxPain 30 "F" 70 "O" [] [] ["headache"] "").explanations.length ≤ 6) :=
  ⟨by decide, c1_normalized_sum fallback_explanations idxPain 30 "F" 70 "O" [] []
    ["headache"] "" (by decide)⟩

/-- C1 counterexample: with two surviving candidates twelve
explanations are assembled with positive total, but the returned
truncated list of six sums to 306/5 = 61.2, far outside 100 plus or
minus 0.1. -/
theorem c1_counterexample :
    0 < sumInfluence (assembledExplanations fallback_explanations idxTwo 30 70 []
      ["headache"] []) ∧
    ¬ |sumInfluence ((predict idxTwo 30 "F" 70 "O" [] [] ["headache"] "").explanations)
        - 100| ≤ 1/10 := by
  constructor
  · decide
  · decide

/-! ## Claim C7: the composite score, max-per-drug rule and top-5 -/

/-- Keys of an updated drug-scores dictionary: unchanged when the key
exists, appended otherwise. -/
theorem dsUpdate_keys (acc : List (String × Entry)) (d0 : String) (e0 : Entry) :
    (dsUpdate acc d0 e0).map Prod.fst =
      if d0 ∈ acc.map Prod.fst then acc.map Prod.fst
      else acc.map Prod.fst ++ [d0] := by
  induction acc with
  | nil => simp [dsUpdate]
  | cons kv acc ih =>
    obtain ⟨k, v⟩ := kv
    by_cases hk : k = d0
    · subst hk
      unfold dsUpdate
      rw [if_pos rfl]
      by_cases hs : v.score < e0.score
      · rw [if_pos hs]
        simp
      · rw [if_neg hs]
        simp
    · unfold dsUpdate
      rw [if_neg hk]
      simp only [List.map_cons]
      rw [ih]
      by_cases hd : d0 ∈ acc.map Prod.fst
      · rw [if_pos hd, if_pos (by simp [hd])]
      · rw [if_neg hd, if_neg (by simp [hd, Ne.symm hk])]
        simp

/-- Updating preserves distinctness of the dictionary keys. -/
theorem dsUpdate_nodup (acc : List (String × Entry)) (d0 : String) (e0 : Entry)
    (h : (acc.map Prod.fst).Nodup) : ((dsUpdate acc d0 e0).map Prod.fst).Nodup := by
  rw [dsUpdate_keys]
  by_cases hd : d0 ∈ acc.map Prod.fst
  · rw [if_pos hd]
    exact h
  · rw [if_neg hd]
    simp [List.nodup_append, h, hd]

/-- After an update the updated key has an entry. -/
theorem dsUpdate_mem_key (acc : List (String × Entry)) (d0 : String) (e0 : Entry) :
    ∃ e, (d0, e) ∈ dsUpdate acc d0 e0 := by
  induction acc with
  | nil => exact ⟨e0, by simp [dsUpdate]⟩
  | cons kv acc ih =>
    obtain ⟨k, v⟩ := kv
    by_cases hk : k = d0
    · subst hk
      unfold dsUpdate
      rw [if_pos rfl]
      by_cases hs : v.score < e0.score
      · rw [if_pos hs]
        exact ⟨e0, List.mem_cons_self _ _⟩
      · rw [if_neg hs]
        exact ⟨v, List.mem_cons_self _ _⟩
    · unfold dsUpdate
      rw [if_neg hk]
      obtain ⟨e, he⟩ := ih
      exact ⟨e, List.mem_cons_of_mem _ he⟩

/-- An update keeps an entry for every key that already had one. -/
theorem dsUpdate_mem_key_of_mem (acc : List (String × Entry)) (d0 : String) (e0 : Entry)
    (pr : String × Entry) (h : pr ∈ acc) : ∃ e, (pr.1, e) ∈ dsUpdate acc d0 e0 := by
  induction acc with
  | nil => cases h
  | cons kv acc ih =>
    obtain ⟨k, v⟩ := kv
    by_cases hk : k = d0
    · subst hk
      unfold dsUpdate
      rw [if_pos rfl]
      rcases List.mem_cons.mp h with h1 | h1
      · by_cases hs : v.score < e0.score
        · rw [if_pos hs]
          subst h1
          exact ⟨e0, List.mem_cons_self _ _⟩
        · rw [if_neg hs]
          subst h1
          exact ⟨v, List.mem_cons_self _ _⟩
      · by_cases hs : v.score < e0.score
        · rw [if_pos hs]
          exact ⟨pr.2, List.mem_cons_of_mem _ h1⟩
        · rw [if_neg hs]
          exact ⟨pr.2, List.mem_cons_of_mem _ h1⟩
    · unfold dsUpdate
      rw [if_neg hk]
      rcases List.mem_cons.mp h with h1 | h1
      · subst h1
        exact ⟨v, List.mem_cons_self _ _⟩
      · obtain ⟨e, he⟩ := ih h1
        exact ⟨e, List.mem_cons_of_mem _ he⟩

/-- Case analysis for membership in an updated dictionary with distinct
keys: an untouched pair with a different key, the kept old entry whose
score already dominates, or the freshly written pair together with the
reason it was written. -/
theorem mem_dsUpdate (d0 : String) (e0 : Entry) (pr : String × Entry) :
    ∀ acc : List (String × Entry), (acc.map Prod.fst).Nodup →
      pr ∈ dsUpdate acc d0 e0 →
      (pr ∈ acc ∧ pr.1 ≠ d0) ∨
      (pr ∈ acc ∧ pr.1 = d0 ∧ e0.score ≤ pr.2.score) ∨
      (pr = (d0, e0) ∧
        ((∀ w, (d0, w) ∉ acc) ∨ ∃ w, (d0, w) ∈ acc ∧ w.score < e0.score)) := by
  intro acc
  induction acc with
  | nil =>
    intro _ h
    right; right
    refine ⟨by simpa [dsUpdate] using h, ?_⟩
    left
    intro w hw
    cases hw
  | cons kv acc ih =>
    obtain ⟨k, v⟩ := kv
    intro hnd h
    rw [List.map_cons] at hnd
    obtain ⟨hknotin, hndtail⟩ := List.nodup_cons.mp hnd
    by_cases hk : k = d0
    · subst hk
      unfold dsUpdate at h
      rw [if_pos rfl] at h
      by_cases hs : v.score < e0.score
      · rw [if_pos hs] at h
        rcases List.mem_cons.mp h with h1 | h1
        · right; right
          exact ⟨h1, Or.inr ⟨v, List.mem_cons_self _ _, hs⟩⟩
        · left
          refine ⟨List.mem_cons_of_mem _ h1, ?_⟩
          intro hpk
          have hmem : pr.1 ∈ acc.map Prod.fst := List.mem_map_of_mem Prod.fst h1
          rw [hpk] at hmem
          exact hknotin hmem
      · rw [if_neg hs] at h
        rcases List.mem_cons.mp h with h1 | h1
        · right; left
          subst h1
          exact ⟨List.mem_cons_self _ _, rfl, le_of_not_lt hs⟩
        · left
          refine ⟨List.mem_cons_of_mem _ h1, ?_⟩
          intro hpk
          have hmem : pr.1 ∈ acc.map Prod.fst := List.mem_map_of_mem Prod.fst h1
          rw [hpk] at hmem
          exact hknotin hmem
    · unfold dsUpdate at h
      rw [if_neg hk] at h
      rcases List.mem_cons.mp h with h1 | h1
      · left
        subst h1
        exact ⟨List.mem_cons_self _ _, hk⟩
      · rcases ih hndtail h1 with h2 | h2 | h2
        · exact Or.inl ⟨List.mem_cons_of_mem _ h2.1, h2.2⟩
        · exact Or.inr (Or.inl ⟨List.mem_cons_of_mem _ h2.1, h2.2.1, h2.2.2⟩)
        · right; right
          refine ⟨h2.1, ?_⟩
          rcases h2.2 with h3 | ⟨w, hw, hws⟩
          · left
            intro w hw
            rcases List.mem_cons.mp hw with h4 | h4
            · exact hk (congrArg Prod.fst h4).symm
            · exact h3 w h4
          · exact Or.inr ⟨w, List.mem_cons_of_mem _ hw, hws⟩

/-- entryGood P pr states that the dictionary pair pr was written from
one of the processed triples in P for its drug key, and its stored
score dominates every processed triple with the same drug key. -/
def entryGood (P : List (String × String × Stats)) (pr : String × Entry) : Prop :=
  ∃ t ∈ P, t.2.1 = pr.1 ∧ pr.2 = mkEntry t ∧
    ∀ t2 ∈ P, t2.2.1 = pr.1 → scoreOf t2.2.2 ≤ pr.2.score

/-- Invariant of the drug-scores fold: distinct keys, every entry is a
dominating entry for the processed prefix, and every processed triple
has an entry under its drug key. -/
theorem foldl_dsUpdate_good (ts : List (String × String × Stats)) :
    ∀ (P : List (String × String × Stats)) (acc : List (String × Entry)),
      (acc.map Prod.fst).Nodup →
      (∀ pr ∈ acc, entryGood P pr) →
      (∀ t ∈ P, ∃ e, (t.2.1, e) ∈ acc) →
      ((ts.foldl (fun a t => dsUpdate a t.2.1 (mkEntry t)) acc).map Prod.fst).Nodup ∧
      (∀ pr ∈ ts.foldl (fun a t => dsUpdate a t.2.1 (mkEntry t)) acc,
        entryGood (P ++ ts) pr) ∧
      (∀ t ∈ P ++ ts, ∃ e,
        (t.2.1, e) ∈ ts.foldl (fun a t => dsUpdate a t.2.1 (mkEntry t)) acc) := by
  induction ts with
  | nil =>
    intro P acc h1 h2 h3
    simp only [List.foldl_nil, List.append_nil]
    exact ⟨h1, h2, h3⟩
  | cons t ts ih =>
    intro P acc h1 h2 h3
    simp only [List.foldl_cons]
    have hnodup2 : ((dsUpdate acc t.2.1 (mkEntry t)).map Prod.fst).Nodup :=
      dsUpdate_nodup _ _ _ h1
    have hgood2 : ∀ pr ∈ dsUpdate acc t.2.1 (mkEntry t), entryGood (P ++ [t]) pr := by
      intro pr hpr
      rcases mem_dsUpdate _ _ _ _ h1 hpr with hc | hc | hc
      · obtain ⟨hin, hne⟩ := hc
        obtain ⟨t0, ht0, hkey, hval, hmax⟩ := h2 pr hin
        refine ⟨t0, List.mem_append_left _ ht0, hkey, hval, ?_⟩
        intro t2 ht2 hkey2
        rcases List.mem_append.mp ht2 with h4 | h4
        · exact hmax t2 h4 hkey2
        · have ht2t : t2 = t := by simpa using h4
          rw [ht2t] at hkey2
          exact absurd hkey2.symm hne
      · obtain ⟨hin, hkey, hle⟩ := hc
        obtain ⟨t0, ht0, hkey0, hval0, hmax⟩ := h2 pr hin
        refine ⟨t0, List.mem_append_left _ ht0, hkey0, hval0, ?_⟩
        intro t2 ht2 hkey2
        rcases List.mem_append.mp ht2 with h4 | h4
        · exact hmax t2 h4 hkey2
        · have ht2t : t2 = t := by simpa using h4
          rw [ht2t]
          exact hle
      · obtain ⟨hpr_eq, hcase⟩ := hc
        subst hpr_eq
        refine ⟨t, List.mem_append_right _ (by simp), rfl, rfl, ?_⟩
        intro t2 ht2 hkey2
        rcases List.mem_append.mp ht2 with h4 | h4
        · rcases hcase with hnone | ⟨w, hw, hws⟩
          · obtain ⟨e, he⟩ := h3 t2 h4
            exact absurd (hkey2 ▸ he) (hnone e)
          · obtain ⟨t0, ht0, -, -, hmax⟩ := h2 (t.2.1, w) hw
            exact le_trans (hmax t2 h4 hkey2) (le_of_lt hws)
        · have ht2t : t2 = t := by simpa using h4
          rw [ht2t]
          exact le_refl _
    have hcovers2 : ∀ t2 ∈ P ++ [t], ∃ e, (t2.2.1, e) ∈ dsUpdate acc t.2.1 (mkEntry t) := by
      intro t2 ht2
      rcases List.mem_append.mp ht2 with h4 | h4
      · obtain ⟨e, he⟩ := h3 t2 h4
        exact dsUpdate_mem_key_of_mem _ _ _ _ he
      · have ht2t : t2 = t := by simpa using h4
        rw [ht2t]
        exact dsUpdate_mem_key _ _ _
    have key := ih (P ++ [t]) (dsUpdate acc t.2.1 (mkEntry t)) hnodup2 hgood2 hcovers2
    rw [List.append_assoc] at key
    exact key

/-- C7: the scorer returns at most five candidates, sorted by score
descending; every returned entry was built (by mkEntry, whose score is
the composite formula scoreOf over the per-pair means) from a
considered triple with its drug key, and its score dominates every
considered triple for the same drug, so only a maximum-scoring
occurrence is kept. -/
theorem c7_scorer_ranking (conditions : List String) (idx : Index) :
    (find_drugs_for_conditions conditions idx).length ≤ 5 ∧
    (find_drugs_for_conditions conditions idx).Pairwise
      (fun a b => b.2.score ≤ a.2.score) ∧
    ∀ p ∈ find_drugs_for_conditions conditions idx,
      (∃ t ∈ consideredTriples conditions idx,
        t.2.1 = p.1 ∧ p.2 = mkEntry t ∧ p.2.score = scoreOf t.2.2) ∧
      ∀ t2 ∈ consideredTriples conditions idx,
        t2.2.1 = p.1 → scoreOf t2.2.2 ≤ p.2.score := by
  obtain ⟨hnd, hgood, hcov⟩ := foldl_dsUpdate_good (consideredTriples conditions idx)
    [] [] (by simp) (by intro pr hpr; cases hpr) (by intro t ht; cases ht)
  refine ⟨?_, ?_, ?_⟩
  · unfold find_drugs_for_conditions
    exact List.length_take_le _ _
  · unfold find_drugs_for_conditions
    exact (List.Pairwise.sublist (List.take_sublist _ _)
      (List.sorted_insertionSort scoreDescLe _)).imp (fun h => h)
  · intro p hp
    unfold find_drugs_for_conditions at hp
    have hp2 := List.mem_of_mem_take hp
    have hp3 : p ∈ (consideredTriples conditions idx).foldl
        (fun a t => dsUpdate a t.2.1 (mkEntry t)) [] :=
      ((List.perm_insertionSort scoreDescLe _).mem_iff).mp hp2
    have hg := hgood p hp3
    unfold entryGood at hg
    obtain ⟨t0, ht0, hkey, hval, hmax⟩ := hg
    exact ⟨⟨t0, ht0, hkey, hval, by rw [hval]; rfl⟩, hmax⟩

/-- C7 witness: in the aspirin index the returned aspirin entry comes
from its considered triple and dominates all considered occurrences. -/
theorem c7_scorer_ranking_witness :
    (∃ t ∈ consideredTriples ["pain"] idxPain,
      t.2.1 = "aspirin" ∧ mkEntry ("pain", "aspirin", stAspirin) = mkEntry t ∧
      (mkEntry ("pain", "aspirin", stAspirin)).score = scoreOf t.2.2) ∧
    ∀ t2 ∈ consideredTriples ["pain"] idxPain,
      t2.2.1 = "aspirin" →
        scoreOf t2.2.2 ≤ (mkEntry ("pain", "aspirin", stAspirin)).score :=
  (c7_scorer_ranking ["pain"] idxPain).2.2
    ("aspirin", mkEntry ("pain", "aspirin", stAspirin)) (by decide)
